import Mathlib

/-!
Verification of the tokenization and reading pipeline of a small Scheme
front end (buffer.py, scheme_tokens.py, scheme_reader.py, scheme_core.py).

The Python source is shallowly embedded:

* Python `re` patterns are embedded as values of a small `Regex` type
  together with an executable prefix matcher `Regex.runs` that reproduces
  the leftmost-priority backtracking semantics of `re.match` (alternation
  is ordered, `star` is greedy, `starNG` is non-greedy).  The matcher is
  fuel-indexed purely to make termination structural; every starred
  sub-pattern of the source consumes at least one character per
  repetition, so fuel `length + 1` is always sufficient.
* Python exceptions are an explicit error type `Err` carried in `Except`.
* Python numbers: `int` and `fractions.Fraction` are exact (`Int` / `Rat`);
  an inexact (float) result is modeled as the exact rational value denoted
  by the parsed literal (constructor `NumVal.float`).  No theorem in this
  file depends on float rounding or on the value of `cmath.rect`, which is
  kept symbolic (`NumVal.polar`).
-/

/-- Backtracking regular expressions, mirroring the operators used by the
patterns in scheme_tokens.py: character predicates, concatenation, ordered
alternation, greedy star and non-greedy star. -/
inductive Regex : Type
| eps : Regex
| pred (p : Char → Bool) : Regex
| cat (a b : Regex) : Regex
| alt (a b : Regex) : Regex
| star (a : Regex) : Regex
| starNG (a : Regex) : Regex

/-- The repetition loop shared by both stars: given the matcher of the
body, produce the match lengths of zero or more repetitions, greedy ones
first (the empty repetition is appended last); `starLoopNG` lists the
empty repetition first.  The fuel argument only bounds the repetition
count structurally; a repetition of an empty body is cut off (Python
likewise stops on empty repeats), so for the patterns of this file, whose
starred bodies always consume at least one character, fuel `length + 1` is
sufficient and the zero-fuel base is never the committed answer. -/
def starLoop (f : List Char → List Nat) : Nat → List Char → List Nat
  | 0, _ => [0]
  | fuel+1, cs =>
    ((f cs).flatMap
      (fun i => if i = 0 then [] else (starLoop f fuel (cs.drop i)).map (fun j => i + j)))
      ++ [0]

/-- Non-greedy repetition loop: the empty repetition has priority. -/
def starLoopNG (f : List Char → List Nat) : Nat → List Char → List Nat
  | 0, _ => [0]
  | fuel+1, cs =>
    0 :: ((f cs).flatMap
      (fun i => if i = 0 then [] else (starLoopNG f fuel (cs.drop i)).map (fun j => i + j)))

/-- All prefix-match lengths of a regex against a character list, in the
priority order a Python backtracking engine would try them: the head of the
result is the span `re.match` commits to.  Greedy star lists longer
repetitions first; non-greedy star lists the empty repetition first. -/
def Regex.runs : Regex → List Char → List Nat
  | .eps, _ => [0]
  | .pred _, [] => []
  | .pred p, c :: _ => if p c then [1] else []
  | .cat a b, cs =>
      (Regex.runs a cs).flatMap
        (fun i => (Regex.runs b (cs.drop i)).map (fun j => i + j))
  | .alt a b, cs => Regex.runs a cs ++ Regex.runs b cs
  | .star a, cs => starLoop (Regex.runs a) (cs.length + 1) cs
  | .starNG a, cs => starLoopNG (Regex.runs a) (cs.length + 1) cs

/-- Length of the prefix accepted by `re.match`, if any: the
highest-priority entry of `Regex.runs`. -/
def Regex.firstSpan (r : Regex) (cs : List Char) : Option Nat :=
  (Regex.runs r cs).head?

-- Helper constructors for transcribing the Python patterns.

/-- A single literal character. -/
def Regex.chr (c : Char) : Regex := .pred (fun d => d = c)

/-- A character class given by an explicit list. -/
def Regex.cls (l : List Char) : Regex := .pred (fun d => l.contains d)

/-- Concatenation of a list of regexes. -/
def rcat (l : List Regex) : Regex := l.foldr Regex.cat Regex.eps

/-- Ordered alternation of a list of regexes (first alternative has
priority, as in Python). -/
def ralt : List Regex → Regex
  | [] => .pred (fun _ => false)
  | [r] => r
  | r :: rs => .alt r (ralt rs)

/-- Greedy `?`: the present alternative is tried first. -/
def ropt (r : Regex) : Regex := .alt r .eps

/-- Greedy `+`. -/
def rplus (r : Regex) : Regex := .cat r (.star r)

-- Characters that would clash with surface-syntax restrictions are spelled
-- by code point: 39 is the single quote, 96 is the backquote, 92 the
-- backslash and 34 the double quote.
/-- The single-quote character. -/
def sqChar : Char := Char.ofNat 39
/-- The backquote character. -/
def bqChar : Char := Char.ofNat 96
/-- The backslash character. -/
def bslChar : Char := Char.ofNat 92
/-- The double-quote character. -/
def dqChar : Char := Char.ofNat 34
/-- The single-quote punctuator as a string. -/
def sqs : String := String.singleton sqChar
/-- The backquote punctuator as a string. -/
def bqs : String := String.singleton bqChar

-- _WHITESPACE = set(' \t\n\r')
/-- Whitespace characters of the tokenizer. -/
def isWs (c : Char) : Bool := c = ' ' || c = Char.ofNat 9 || c = Char.ofNat 10 || c = Char.ofNat 13

/-- The newline character. -/
def nlChar : Char := Char.ofNat 10

-- STRING_CHARS = (\\\\|\\"|[^\\]) : an escaped backslash, an escaped double
-- quote, or any single character other than a backslash (negated classes
-- match newline in Python).
/-- One string character, per STRING_CHARS. -/
def STRING_CHARS : Regex :=
  ralt [rcat [Regex.chr bslChar, Regex.chr bslChar],
        rcat [Regex.chr bslChar, Regex.chr dqChar],
        Regex.pred (fun c => c != bslChar)]

/-- RAW_STRING: a double quote, a non-greedy run of string characters, and a
closing double quote. -/
def RAW_STRING : Regex := rcat [Regex.chr dqChar, Regex.starNG STRING_CHARS, Regex.chr dqChar]

/-- STRING_START: a double quote, a greedy run of string characters, and the
line-terminating newline.  Matching it means the string continues on the
next line. -/
def STRING_START : Regex := rcat [Regex.chr dqChar, Regex.star STRING_CHARS, Regex.chr nlChar]

/-- STRING_END: a non-greedy run of string characters up to the earliest
closing double quote. -/
def STRING_END : Regex := rcat [Regex.starNG STRING_CHARS, Regex.chr dqChar]

/-- BOOLEAN = #[tTfF]. -/
def BOOLEAN : Regex := rcat [Regex.chr '#', Regex.cls ['t', 'T', 'f', 'F']]

/-- CHARACTER: the space and newline character names (case-insensitively)
or a hash, backslash and any single character (DOTALL). -/
def CHARACTER : Regex :=
  ralt [rcat [Regex.chr '#', Regex.chr bslChar,
              Regex.cls ['s', 'S'], Regex.cls ['p', 'P'], Regex.cls ['a', 'A'],
              Regex.cls ['c', 'C'], Regex.cls ['e', 'E']],
        rcat [Regex.chr '#', Regex.chr bslChar,
              Regex.cls ['n', 'N'], Regex.cls ['e', 'E'], Regex.cls ['w', 'W'],
              Regex.cls ['l', 'L'], Regex.cls ['i', 'I'], Regex.cls ['n', 'N'],
              Regex.cls ['e', 'E']],
        rcat [Regex.chr '#', Regex.chr bslChar, Regex.pred (fun _ => true)]]

-- INITIAL = a-zA-Z!$%&*/:<=>?^_~ ; SUBSEQUENT adds 0-9+-.@
/-- Membership in the INITIAL identifier class. -/
def isInitialChar (c : Char) : Bool :=
  c.isAlpha || ['!', '$', '%', '&', '*', '/', ':', '<', '=', '>', '?', '^', '_', '~'].contains c

/-- Membership in the SUBSEQUENT identifier class. -/
def isSubsequentChar (c : Char) : Bool :=
  isInitialChar c || c.isDigit || ['+', '-', '.', '@'].contains c

/-- IDENTIFIER: an initial character followed by subsequent characters, or
one of the peculiar identifiers +, -, and the ellipsis. -/
def IDENTIFIER : Regex :=
  ralt [rcat [Regex.pred isInitialChar, Regex.star (Regex.pred isSubsequentChar)],
        Regex.chr '+',
        Regex.chr '-',
        rcat [Regex.chr '.', Regex.chr '.', Regex.chr '.']]

/-- PUNCTUATOR: the hash-paren, comma-at, and the single-character
punctuators. -/
def PUNCTUATOR : Regex :=
  ralt [rcat [Regex.chr '#', Regex.chr '('],
        rcat [Regex.chr ',', Regex.chr '@'],
        Regex.cls ['(', ')', sqChar, bqChar, ',', '.']]

/-- COMMENT = ;.* (the dot does not match newline here). -/
def COMMENT : Regex := rcat [Regex.chr ';', Regex.star (Regex.pred (fun c => c != nlChar))]

-- The numeric literal grammar of scheme_tokens.py, transcribed
-- constructor by constructor from the source regex definitions.

/-- EXACTNESS = (#[eEiI]). -/
def EXACTNESS : Regex := rcat [Regex.chr '#', Regex.cls ['e', 'E', 'i', 'I']]

/-- PREFIX_2: radix-2 prefix and optional exactness, in either order. -/
def PFX_2 : Regex :=
  ralt [rcat [Regex.chr '#', Regex.cls ['b', 'B'], ropt EXACTNESS],
        rcat [EXACTNESS, Regex.chr '#', Regex.cls ['b', 'B']]]

/-- PREFIX_8. -/
def PFX_8 : Regex :=
  ralt [rcat [Regex.chr '#', Regex.cls ['o', 'O'], ropt EXACTNESS],
        rcat [EXACTNESS, Regex.chr '#', Regex.cls ['o', 'O']]]

/-- PREFIX_10: either exactness-then-radix, or the optional radix followed
by optional exactness (possibly entirely empty). -/
def PFX_10 : Regex :=
  ralt [rcat [EXACTNESS, Regex.chr '#', Regex.cls ['d', 'D']],
        rcat [ropt (rcat [Regex.chr '#', Regex.cls ['d', 'D']]), ropt EXACTNESS]]

/-- PREFIX_16. -/
def PFX_16 : Regex :=
  ralt [rcat [Regex.chr '#', Regex.cls ['x', 'X'], ropt EXACTNESS],
        rcat [EXACTNESS, Regex.chr '#', Regex.cls ['x', 'X']]]

/-- EXPONENT_MARKER = [eEsSfFdDlL]. -/
def EXPONENT_MARKER : Regex := Regex.cls ['e', 'E', 's', 'S', 'f', 'F', 'd', 'D', 'l', 'L']

/-- SIGN = [+-]?. -/
def SIGN : Regex := ropt (Regex.cls ['+', '-'])

/-- A decimal digit. -/
def rdigit : Regex := Regex.pred Char.isDigit

/-- SUFFIX: an optional exponent marker with signed digits. -/
def SUFFIX : Regex := ropt (rcat [EXPONENT_MARKER, SIGN, rplus rdigit])

/-- UINTEGER_2 = [01]+#*. -/
def UINTEGER_2 : Regex := rcat [rplus (Regex.cls ['0', '1']), Regex.star (Regex.chr '#')]

/-- UINTEGER_8 = [0-7]+#*. -/
def UINTEGER_8 : Regex :=
  rcat [rplus (Regex.pred (fun c => '0' ≤ c && c ≤ '7')), Regex.star (Regex.chr '#')]

/-- UINTEGER_10 = [0-9]+#*. -/
def UINTEGER_10 : Regex := rcat [rplus rdigit, Regex.star (Regex.chr '#')]

/-- A hexadecimal digit. -/
def isHexChar (c : Char) : Bool :=
  c.isDigit || ('a' ≤ c && c ≤ 'f') || ('A' ≤ c && c ≤ 'F')

/-- UINTEGER_16 = [0-9a-fA-F]+#*. -/
def UINTEGER_16 : Regex := rcat [rplus (Regex.pred isHexChar), Regex.star (Regex.chr '#')]

/-- DECIMAL_10: the four decimal alternatives of the source, in order. -/
def DECIMAL_10 : Regex :=
  ralt [rcat [Regex.chr '.', rplus rdigit, Regex.star (Regex.chr '#'), SUFFIX],
        rcat [rplus rdigit, Regex.chr '.', Regex.star rdigit, Regex.star (Regex.chr '#'), SUFFIX],
        rcat [rplus rdigit, rplus (Regex.chr '#'), Regex.chr '.', Regex.star (Regex.chr '#'), SUFFIX],
        rcat [UINTEGER_10, SUFFIX]]

/-- UREAL_2: a fraction or an unsigned integer. -/
def UREAL_2 : Regex :=
  ralt [rcat [UINTEGER_2, Regex.chr '/', UINTEGER_2], UINTEGER_2]

/-- UREAL_8. -/
def UREAL_8 : Regex :=
  ralt [rcat [UINTEGER_8, Regex.chr '/', UINTEGER_8], UINTEGER_8]

/-- UREAL_10: a fraction, a decimal, or an unsigned integer. -/
def UREAL_10 : Regex :=
  ralt [rcat [UINTEGER_10, Regex.chr '/', UINTEGER_10], DECIMAL_10, UINTEGER_10]

/-- UREAL_16. -/
def UREAL_16 : Regex :=
  ralt [rcat [UINTEGER_16, Regex.chr '/', UINTEGER_16], UINTEGER_16]

/-- REAL_2 = SIGN UREAL_2. -/
def REAL_2 : Regex := rcat [SIGN, UREAL_2]

/-- REAL_8. -/
def REAL_8 : Regex := rcat [SIGN, UREAL_8]

/-- REAL_10. -/
def REAL_10 : Regex := rcat [SIGN, UREAL_10]

/-- REAL_16. -/
def REAL_16 : Regex := rcat [SIGN, UREAL_16]

/-- COMPLEX_2: polar, rectangular, pure imaginary, or real. -/
def COMPLEX_2 : Regex :=
  ralt [rcat [REAL_2, Regex.chr '@', REAL_2],
        rcat [REAL_2, Regex.cls ['+', '-'], ropt UREAL_2, Regex.chr 'i'],
        rcat [Regex.cls ['+', '-'], ropt UREAL_2, Regex.chr 'i'],
        REAL_2]

/-- COMPLEX_8. -/
def COMPLEX_8 : Regex :=
  ralt [rcat [REAL_8, Regex.chr '@', REAL_8],
        rcat [REAL_8, Regex.cls ['+', '-'], ropt UREAL_8, Regex.chr 'i'],
        rcat [Regex.cls ['+', '-'], ropt UREAL_8, Regex.chr 'i'],
        REAL_8]

/-- COMPLEX_10. -/
def COMPLEX_10 : Regex :=
  ralt [rcat [REAL_10, Regex.chr '@', REAL_10],
        rcat [REAL_10, Regex.cls ['+', '-'], ropt UREAL_10, Regex.chr 'i'],
        rcat [Regex.cls ['+', '-'], ropt UREAL_10, Regex.chr 'i'],
        REAL_10]

/-- COMPLEX_16. -/
def COMPLEX_16 : Regex :=
  ralt [rcat [REAL_16, Regex.chr '@', REAL_16],
        rcat [REAL_16, Regex.cls ['+', '-'], ropt UREAL_16, Regex.chr 'i'],
        rcat [Regex.cls ['+', '-'], ropt UREAL_16, Regex.chr 'i'],
        REAL_16]

/-- NUMBER: the four radix branches, each a prefix followed by a complex
number in that radix. -/
def NUMBER : Regex :=
  ralt [rcat [PFX_2, COMPLEX_2],
        rcat [PFX_8, COMPLEX_8],
        rcat [PFX_10, COMPLEX_10],
        rcat [PFX_16, COMPLEX_16]]

-- Number utilities of the source (already-lowercased forms).

/-- PREFIX = #[bodx](#[ei])?|#[ei](#[bodx])? (matched against lowercased
text). -/
def PFX : Regex :=
  ralt [rcat [Regex.chr '#', Regex.cls ['b', 'o', 'd', 'x'],
              ropt (rcat [Regex.chr '#', Regex.cls ['e', 'i']])],
        rcat [Regex.chr '#', Regex.cls ['e', 'i'],
              ropt (rcat [Regex.chr '#', Regex.cls ['b', 'o', 'd', 'x']])]]

/-- NUMBER accepts the whole string (the tokenizer consumes exactly this
literal): the priority match spans the full input. -/
def numberAccepts (s : String) : Bool :=
  Regex.firstSpan NUMBER s.toList = some s.toList.length

-- Python exceptions and values.

/-- The Python exceptions that the pipeline can raise, plus a `fuel`
marker used only by the fuel-indexed recursions of this embedding (it is
distinct from every modeled exception). -/
inductive Err : Type
| eofError
| synError (msg : String)
| valueError (msg : String)
| zeroDivisionError
| typeError (msg : String)
| assertionError
| fuel
deriving DecidableEq, Repr

/-- Equality of Except results is decidable componentwise (used to
evaluate the embedding at concrete inputs). -/
instance exceptDecEq {e a : Type} [DecidableEq e] [DecidableEq a] : DecidableEq (Except e a)
  | .ok x, .ok y =>
    if h : x = y then isTrue (by rw [h]) else isFalse (by intro hc; cases hc; exact h rfl)
  | .ok _, .error _ => isFalse (by intro hc; cases hc)
  | .error _, .ok _ => isFalse (by intro hc; cases hc)
  | .error x, .error y =>
    if h : x = y then isTrue (by rw [h]) else isFalse (by intro hc; cases hc; exact h rfl)

/-- A numeric token value.  `int` and `rat` are Python int and Fraction
(exact).  `float` is a Python float, modeled by the exact rational value of
the parsed literal; no theorem in this file depends on float rounding.
`complexRect` is a complex built from two real components; `polar` records
the two arguments of cmath.rect, whose transcendental value is left
symbolic. -/
inductive NumVal : Type
| int (n : Int)
| rat (q : Rat)
| float (q : Rat)
| complexRect (re im : Rat)
| polar (mag arg : Rat)
deriving DecidableEq, Repr

/-- A token, as dynamically typed in the Python source: numbers, booleans,
and strings (symbols, string literals with their quotes, characters, and
punctuators are all Python `str`). -/
inductive Token : Type
| num (v : NumVal)
| bool (b : Bool)
| str (s : String)
deriving DecidableEq, Repr

-- String helpers mirroring Python primitives.

/-- Whether `pat` occurs as a prefix of `cs`. -/
def startsWithSeg : List Char → List Char → Bool
  | [], _ => true
  | _ :: _, [] => false
  | p :: ps, c :: cs => p = c && startsWithSeg ps cs

/-- Python `pat in s`: substring occurrence. -/
def hasSub (pat : List Char) : List Char → Bool
  | [] => startsWithSeg pat []
  | c :: cs => startsWithSeg pat (c :: cs) || hasSub pat cs

/-- EXACTNESS_LOWER.sub applied to the matched prefix: removes every
occurrence of #e or #i, scanning left to right. -/
def exactnessSub : List Char → List Char
  | '#' :: 'e' :: r => exactnessSub r
  | '#' :: 'i' :: r => exactnessSub r
  | c :: r => c :: exactnessSub r
  | [] => []

/-- Python str.split(sep): all separator-delimited fields. -/
def splitOn (sep : Char) : List Char → List (List Char)
  | [] => [[]]
  | c :: r =>
    if c = sep then [] :: splitOn sep r
    else match splitOn sep r with
      | h :: t => (c :: h) :: t
      | [] => [[c]]

/-- ASCII lowercasing of a character list (Python str.lower on this
alphabet). -/
def lowerChars (cs : List Char) : List Char := cs.map Char.toLower

/-- Numeric value of a known digit character (0-9, a-z). -/
def digitVal (c : Char) : Option Nat :=
  if c.isDigit then some (c.toNat - 48)
  else if 'a' ≤ c && c ≤ 'z' then some (c.toNat - 87)
  else none

/-- Value of a nonempty all-valid digit string in the given radix, or
none. -/
def digitsValue (radix : Nat) (cs : List Char) : Option Nat :=
  if cs.isEmpty then none
  else cs.foldlM
    (fun acc c => match digitVal c with
      | some d => if d < radix then some (acc * radix + d) else none
      | none => none) 0

/-- Python int(s, radix): an optional sign followed by a nonempty run of
digits valid in the radix (the grammar feeds no other shapes; whitespace,
underscores and 0x-style prefixes are not reproduced). -/
def pyInt (radix : Nat) (cs : List Char) : Except Err Int :=
  match cs with
  | '+' :: rest =>
    match digitsValue radix rest with
    | some n => .ok (n : Int)
    | none => .error (.valueError ("invalid literal for int"))
  | '-' :: rest =>
    match digitsValue radix rest with
    | some n => .ok (-(n : Int))
    | none => .error (.valueError ("invalid literal for int"))
  | _ =>
    match digitsValue radix cs with
    | some n => .ok (n : Int)
    | none => .error (.valueError ("invalid literal for int"))

/-- Value of an all-digit string in base 10 (used after validity has been
established). -/
def digitsToNat (cs : List Char) : Nat :=
  cs.foldl (fun a c => a * 10 + (c.toNat - 48)) 0

/-- The exponent tail of a decimal literal: empty, or the letter e followed
by an optionally signed nonempty digit run reaching the end. -/
def parseExpPart : List Char → Option Int
  | [] => some 0
  | 'e' :: r =>
    match r with
    | '+' :: r2 => (digitsValue 10 r2).map (fun n => (n : Int))
    | '-' :: r2 => (digitsValue 10 r2).map (fun n => -(n : Int))
    | r2 => (digitsValue 10 r2).map (fun n => (n : Int))
  | _ => none

/-- Exact rational value of a sign/integer-part/fraction-part/exponent
decomposition. -/
def decValue (sgn : Int) (ip fp : List Char) (e : Int) : Rat :=
  let m : Int := sgn * ((digitsToNat ip : Int) * (10 : Int) ^ fp.length + (digitsToNat fp : Int))
  let base : Rat := (m : Rat) / ((10 : Rat) ^ fp.length)
  if 0 ≤ e then base * (10 : Rat) ^ e.toNat else base / (10 : Rat) ^ (-e).toNat

/-- Parse a decimal literal ([sign] digits [. digits] [exponent], with at
least one mantissa digit), as accepted by Python float() and by Fraction()
on decimal strings, returning its exact rational value. -/
def parseDecCore (cs : List Char) : Option Rat :=
  let sgn : Int := match cs.head? with
    | some '+' => 1
    | some '-' => -1
    | _ => 1
  let cs1 := match cs.head? with
    | some '+' => cs.drop 1
    | some '-' => cs.drop 1
    | _ => cs
  let ip := cs1.takeWhile Char.isDigit
  let cs2 := cs1.dropWhile Char.isDigit
  match cs2 with
  | '.' :: r =>
    let fp := r.takeWhile Char.isDigit
    let cs3 := r.dropWhile Char.isDigit
    if ip.isEmpty && fp.isEmpty then none
    else (parseExpPart cs3).map (fun e => decValue sgn ip fp e)
  | cs3 =>
    if ip.isEmpty then none
    else (parseExpPart cs3).map (fun e => decValue sgn ip [] e)

/-- Python float(s) on decimal text: the parsed exact value, or
ValueError. -/
def pyFloat (cs : List Char) : Except Err Rat :=
  match parseDecCore cs with
  | some q => .ok q
  | none => .error (.valueError ("could not convert string to float"))

/-- Python fractions.Fraction(s) on a string: a slash-separated integer
pair (ZeroDivisionError on zero denominator) or a decimal literal. -/
def pyFraction (cs : List Char) : Except Err Rat :=
  if cs.contains '/' then
    let sgn : Int := match cs.head? with
      | some '-' => -1
      | _ => 1
    let cs1 := match cs.head? with
      | some '+' => cs.drop 1
      | some '-' => cs.drop 1
      | _ => cs
    let n := cs1.takeWhile Char.isDigit
    match cs1.dropWhile Char.isDigit with
    | '/' :: d =>
      if n.isEmpty || d.isEmpty || !(d.all Char.isDigit) then
        .error (.valueError ("invalid literal for Fraction"))
      else if digitsToNat d = 0 then .error .zeroDivisionError
      else .ok ((sgn * (digitsToNat n : Int) : Rat) / (digitsToNat d : Rat))
    | _ => .error (.valueError ("invalid literal for Fraction"))
  else
    match parseDecCore cs with
    | some q => .ok q
    | none => .error (.valueError ("invalid literal for Fraction"))

/-- process_rational from scheme_tokens.py: fractions via Fraction(int, int)
with int demotion when the denominator is 1, and integers via int(s, radix);
a true `inexact` converts the result to float. -/
def process_rational (tokenText : List Char) (radix : Nat) (inexact : Bool) :
    Except Err NumVal :=
  if tokenText.contains '/' then do
    let ints ← (splitOn '/' tokenText).mapM (pyInt radix)
    match ints with
    | [a, b] =>
      if b = 0 then .error .zeroDivisionError
      else
        let value : Rat := (a : Rat) / (b : Rat)
        if inexact then .ok (.float value)
        else if value.den = 1 then .ok (.int value.num)
        else .ok (.rat value)
    | _ => .error (.typeError ("argument should be a string or a Rational instance"))
  else do
    let v ← pyInt radix tokenText
    if inexact then .ok (.float (v : Rat)) else .ok (.int v)

/-- Numeric payload of a process_rational result (its complex constructors
never occur there). -/
def ratOfNum : NumVal → Rat
  | .int n => (n : Rat)
  | .rat q => q
  | .float q => q
  | .complexRect r _ => r
  | .polar r _ => r

/-- Index of the rightmost + or - in the text, if any (Python
max(rfind +, rfind -)). -/
def rfindSign (cs : List Char) : Option Nat :=
  ((List.range cs.length).reverse).find?
    (fun i => cs.getD i ' ' = '+' || cs.getD i ' ' = '-')

/-- Model of Python complex(cs + 'j') for the decimal rectangular texts the
grammar can produce: an optional real part, then a signed optional
imaginary magnitude (a bare sign or absent magnitude meaning one). -/
def pyComplexOfJ (cs : List Char) : Except Err NumVal :=
  let signAt := ((List.range cs.length).reverse).find?
    (fun i => 1 ≤ i && (cs.getD i ' ' = '+' || cs.getD i ' ' = '-') && cs.getD (i-1) ' ' ≠ 'e')
  match signAt with
  | some i => do
    let re ← pyFloat (cs.take i)
    let imTail := cs.drop i
    let im ← if imTail.length = 1 then pyFloat (imTail ++ ['1']) else pyFloat imTail
    .ok (.complexRect re im)
  | none =>
    if cs.isEmpty then .ok (.complexRect 0 1)
    else do
      let im ← pyFloat cs
      .ok (.complexRect 0 im)

/-- Python str.partition(sep): the part before the first separator and the
part after it. -/
def partition2 (sep : Char) (cs : List Char) : List Char × List Char :=
  (cs.takeWhile (fun c => c ≠ sep), (cs.dropWhile (fun c => c ≠ sep)).drop 1)

/-- process_number from scheme_tokens.py, transcribed step by step: lower
the text, strip and analyze the prefix, replace placeholder hashes by
zeros, then dispatch on decimal point or letter e (floating-point branch),
trailing i (rectangular), at-sign (polar), or plain rational. -/
def process_number (s : String) : Except Err NumVal :=
  let cs0 := lowerChars s.toList
  let pfxSpan := Regex.firstSpan PFX cs0
  let pfx := match pfxSpan with
    | some n => cs0.take n
    | none => []
  let cs1 := match pfxSpan with
    | some n => cs0.drop n
    | none => cs0
  let inexact := hasSub ['#', 'i'] pfx
  let isExact := hasSub ['#', 'e'] pfx
  let pfx2 := exactnessSub pfx
  let radix : Nat := match pfx2 with
    | '#' :: c :: _ =>
      if c = 'b' then 2 else if c = 'o' then 8
      else if c = 'd' then 10 else if c = 'x' then 16 else 10
    | _ => 10
  let t := cs1.map (fun c => if c = '#' then '0' else c)
  if t.contains '.' || t.contains 'e' then
    -- Floating-point literals: normalize every exponent marker to e
    let t2 := t.map (fun c => if ['e', 's', 'd', 'f', 'l'].contains c then 'e' else c)
    if t2.getLast? = some 'i' then pyComplexOfJ t2.dropLast
    else if t2.contains '@' then do
      let p := partition2 '@' t2
      let x ← pyFloat p.1
      let y ← pyFloat p.2
      .ok (.polar x y)
    else if isExact then do
      let q ← pyFraction t2
      .ok (.rat q)
    else do
      let q ← pyFloat t2
      .ok (.float q)
  else if t.getLast? = some 'i' then
    match rfindSign t with
    | some split => do
      let realText0 := t.take split
      let imagText0 := (t.drop split).dropLast
      let realText := if realText0.isEmpty then ['0'] else realText0
      let imagText := if imagText0.length = 1 then imagText0 ++ ['1'] else imagText0
      let re ← process_rational realText radix false
      let im ← process_rational imagText radix false
      .ok (.complexRect (ratOfNum re) (ratOfNum im))
    | none => do
      -- Python: split is -1, giving imag_text = '' and int('') raising
      let re ← process_rational t.dropLast radix false
      let im ← process_rational [] radix false
      .ok (.complexRect (ratOfNum re) (ratOfNum im))
  else if t.contains '@' then do
    let p := partition2 '@' t
    let x ← process_rational p.1 radix false
    let y ← process_rational p.2 radix false
    .ok (.polar (ratOfNum x) (ratOfNum y))
  else
    process_rational t radix inexact

-- The Tokenizer class.

/-- Tokenizer state: the pending multi-line string fragment (named
partial_string in the source; renamed here for surface-syntax reasons). -/
structure TokState : Type where
  pending_string : Option String
deriving DecidableEq, Repr

/-- Python truthiness of the pending-string field (None and the empty
string are falsy). -/
def truthy : Option String → Bool
  | none => false
  | some s => !(s.isEmpty)

/-- The kinds of token patterns, in the priority order of TOKEN_PATTERNS. -/
inductive PatKind : Type
| rawString
| stringStart
| boolean
| character
| number
| identifier
| punctuator
| comment
deriving DecidableEq, Repr

/-- TOKEN_PATTERNS: the patterns tried in order by _next_token. -/
def TOKEN_PATTERNS : List (PatKind × Regex) :=
  [(.rawString, RAW_STRING), (.stringStart, STRING_START), (.boolean, BOOLEAN),
   (.character, CHARACTER), (.number, NUMBER), (.identifier, IDENTIFIER),
   (.punctuator, PUNCTUATOR), (.comment, COMMENT)]

/-- STRING_ESCAPE.sub of the source: each backslash-character pair is
replaced by the escaped character alone (DOTALL: newline included); a
trailing lone backslash is left in place, matching the regex. -/
def pyEscapeSub : List Char → List Char
  | [] => []
  | c :: rest =>
    if c = bslChar then
      match rest with
      | d :: rest2 => d :: pyEscapeSub rest2
      | [] => [c]
    else c :: pyEscapeSub rest

/-- Tokenizer._process_token: post-processing of a matched text by the
pattern kind that produced it.  check_termination of the source only
prints a non-fatal warning and is not modeled. -/
def processTok (st : TokState) (pat : PatKind) (text : List Char) :
    Except Err (Token × TokState) :=
  match pat with
  | .rawString => .ok (.str (String.mk (pyEscapeSub text)), st)
  | .stringStart => .ok (.str (""), { pending_string := some (String.mk text) })
  | .boolean => .ok (.bool (lowerChars text = ['#', 't']), st)
  | .character =>
    if text.length > 3 then .ok (.str (String.mk (lowerChars text)), st)
    else .ok (.str (String.mk text), st)
  | .number => do
    let v ← process_number (String.mk text)
    .ok (.num v, st)
  | .identifier => .ok (.str (String.mk (lowerChars text)), st)
  | .punctuator => .ok (.str (String.mk text), st)
  | .comment => .ok (.str (""), st)

/-- The first pattern of the list matching the text, with its span. -/
def tryPats : List (PatKind × Regex) → List Char → Option (PatKind × Nat)
  | [], _ => none
  | (k, r) :: rest, cs =>
    match Regex.firstSpan r cs with
    | some n => some (k, n)
    | none => tryPats rest cs

/-- Index of the first non-whitespace character at or after pos. -/
def skipWs (cs : List Char) (pos : Nat) : Nat :=
  pos + ((cs.drop pos).takeWhile isWs).length

/-- Tokenizer._next_token: handle a pending multi-line string, else skip
whitespace and try the patterns in priority order.  Returns the processed
token (the empty string standing for no token), the following position,
and the updated state. -/
def nextToken (st : TokState) (line : List Char) (pos : Nat) :
    Except Err ((Token × Nat) × TokState) :=
  if truthy st.pending_string then
    if pos ≠ 0 then .error .assertionError
    else
      let p := (st.pending_string.getD ("")).toList
      match Regex.firstSpan STRING_END line with
      | some n =>
        .ok ((.str (String.mk (pyEscapeSub (p ++ line.take n))), n),
             { pending_string := none })
      | none =>
        .ok ((.str (""), line.length),
             { pending_string := some (String.mk (p ++ line)) })
  else
    let pos1 := skipWs line pos
    if pos1 = line.length then .ok ((.str (""), pos1), st)
    else
      match tryPats TOKEN_PATTERNS (line.drop pos1) with
      | some (k, n) => do
        let (tok, st2) ← processTok st k ((line.drop pos1).take n)
        .ok ((tok, pos1 + n), st2)
      | none => .error (.synError ("invalid token: " ++ String.mk (line.drop pos1)))

/-- The token-collecting loop of tokenize_line: gather tokens until the
empty-string token appears.  Fuel only bounds the iteration count; each
productive iteration advances the position, so the fuel supplied by
tokenize_line is never exhausted. -/
def tokLoop : Nat → TokState → List Char → Nat → Except Err (List Token × TokState)
  | 0, _, _, _ => .error .fuel
  | fuel+1, st, cs, pos =>
    match nextToken st cs pos with
    | .error e => .error e
    | .ok ((tok, pos2), st2) =>
      if tok = Token.str ("") then .ok ([], st2)
      else
        match tokLoop fuel st2 cs pos2 with
        | .error e => .error e
        | .ok (ts, st3) => .ok (tok :: ts, st3)

/-- Line normalization of tokenize_line: a missing trailing newline is
appended. -/
def normalizeLine (line : String) : List Char :=
  let cs := line.toList
  if cs.getLast? = some nlChar then cs else cs ++ [nlChar]

/-- Tokenizer.tokenize_line: the tokens of one line together with the
carried-over state. -/
def tokenize_line (st : TokState) (line : String) : Except Err (List Token × TokState) :=
  let cs := normalizeLine line
  tokLoop (cs.length + 2) st cs 0

-- The Buffer class (buffer.py).

/-- Buffer state: cursor index, lines read so far, remaining source lines,
the current line, and the number of next() requests made to the source
(the last field instruments the source boundary; the Python object state
is the first four fields). -/
structure Buffer : Type where
  index : Nat
  lines : List (List Token)
  source : List (List Token)
  current_line : List Token
  queries : Nat
deriving DecidableEq, Repr

/-- The while loop of Buffer.current: while the cursor is past the current
line, reset it and pull the next line from the source; an exhausted source
(StopIteration) leaves an empty current line and yields None.  Every pull,
including the failing one, counts as a source query. -/
def currentAux (index : Nat) (cl : List Token) (lines : List (List Token))
    (queries : Nat) : List (List Token) → Option Token × Buffer
  | [] =>
    if h : index < cl.length then (some (cl.get ⟨index, h⟩), ⟨index, lines, [], cl, queries⟩)
    else (none, ⟨0, lines, [], [], queries + 1⟩)
  | l :: rest =>
    if h : index < cl.length then
      (some (cl.get ⟨index, h⟩), ⟨index, lines, l :: rest, cl, queries⟩)
    else currentAux 0 l (lines ++ [l]) (queries + 1) rest

/-- Buffer.current(): the element at the cursor, or None when the source
is exhausted. -/
def Buffer.current (b : Buffer) : Option Token × Buffer :=
  currentAux b.index b.current_line b.lines b.queries b.source

/-- Buffer.pop(): Buffer.current() followed by advancing the cursor. -/
def Buffer.pop (b : Buffer) : Option Token × Buffer :=
  let r := Buffer.current b
  (r.1, { r.2 with index := r.2.index + 1 })

/-- Buffer construction: initial fields as in __init__, followed by the
initial current() call whose value is discarded. -/
def mkBuffer (source : List (List Token)) : Buffer :=
  (Buffer.current ⟨0, [], source, [], 0⟩).2

/-- The tokens still to be delivered by a buffer: the rest of the current
line followed by the flattened remaining source. -/
def rem (b : Buffer) : List Token :=
  b.current_line.drop b.index ++ b.source.flatten

/-- Iterated pops: the list of the first n pop() results. -/
def pops : Buffer → Nat → List (Option Token)
  | _, 0 => []
  | b, n+1 =>
    let r := Buffer.pop b
    r.1 :: pops r.2 n

-- The reader (scheme_reader.py).

/-- The expression values the reader produces: atoms are the token values
themselves; composites are pairs and the empty-list singleton Nil. -/
inductive SchemeVal : Type
| atom (t : Token)
| nil
| pair (first second : SchemeVal)
deriving DecidableEq, Repr

/-- PUNCTUATORS from scheme_tokens.py, as the set of punctuator strings. -/
def punctuatorStrings : List String :=
  ["(", ")", sqs, bqs, ",", ".", ",@", "#("]

/-- The QUOTES mapping keys of scheme_reader.py. -/
def quoteKeys : List String := [sqs, bqs, ",", ",@"]

/-- Reader errors reuse the Python exception type Err; this converts an
end-of-input signal raised inside read_tail into the syntax error of the
source, leaving every other outcome unchanged (the try/except around
read_tail's body). -/
def catchEof (r : Except Err (SchemeVal × Buffer)) : Except Err (SchemeVal × Buffer) :=
  match r with
  | .error .eofError => .error (.synError ("unexpected end of file"))
  | x => x

mutual

/-- scheme_read from scheme_reader.py, fuel-indexed.  The quote-family
branch of the source is the unfilled stub `if val in QUOTES: pass`, so
control falls through it to the paren test and the unexpected-token
raise. -/
def scheme_read : Nat → Buffer → Except Err (SchemeVal × Buffer)
  | 0, _ => .error .fuel
  | fuel+1, src =>
    match Buffer.current src with
    | (none, _) => .error .eofError
    | (some _, src1) =>
      -- val = src.pop(); current() is idempotent once it has returned a
      -- token, so pop here yields that same token (the none branch below
      -- is unreachable and kept only for totality)
      match Buffer.pop src1 with
      | (none, _) => .error .eofError
      | (some val, src2) =>
        match val with
        | .str s =>
          if punctuatorStrings.contains s then
            -- if val in QUOTES: pass  (unfilled stub: no effect on s,
            -- control falls through to the paren test and the raise)
            let _isQuote := quoteKeys.contains s
            if s = "(" then read_tail fuel src2 0
            else .error (.synError ("unexpected token: " ++ s))
          else .ok (.atom (.str s), src2)
        | v => .ok (.atom v, src2)

/-- read_tail from scheme_reader.py, fuel-indexed.  The dot-handling
section of the source is likewise an unfilled stub, so after the
end-of-input and close-paren tests it reads an element and recurses. -/
def read_tail : Nat → Buffer → Nat → Except Err (SchemeVal × Buffer)
  | 0, _, _ => .error .fuel
  | fuel+1, src, item_count =>
    catchEof
      (match Buffer.current src with
       | (none, _) => .error (.synError ("unexpected end of file"))
       -- the second src.current() of the source returns this same token
       -- and state (current is idempotent once it has returned a token)
       | (some tok, src1) =>
         if tok = Token.str (")") then
           .ok (.nil, (Buffer.pop src1).2)
         else do
           let (first, src2) ← scheme_read fuel src1
           let (rest, src3) ← read_tail fuel src2 (item_count + 1)
           .ok (.pair first rest, src3))

end

/-- read_line from scheme_reader.py: tokenize the single line and read one
expression from a buffer over it (the map-based laziness of
tokenize_lines is irrelevant for a single line).  The fuel is sufficient
for any buffer of that token count. -/
def read_line (line : String) : Except Err SchemeVal := do
  let (ts, _) ← tokenize_line ⟨none⟩ line
  let (v, _) ← scheme_read (2 * ts.length + 2) (mkBuffer [ts])
  .ok v

-- Pair iteration and length (scheme_core.py).

/-- Pair.__iter__: yield each first along the chain of pairs; when the
chain ends in a value other than Nil, yield that terminal value too.  The
function is total: iteration never raises. -/
def iterLoop : SchemeVal → List SchemeVal
  | .pair f s => f :: iterLoop s
  | .nil => []
  | .atom t => [.atom t]

/-- The counting loop of Pair.__len__: step through the seconds, and fail
with TypeError when the terminal value is not Nil. -/
def lenLoop : Nat → SchemeVal → Except Err Nat
  | n, .pair _ s => lenLoop (n + 1) s
  | n, .nil => .ok n
  | _, .atom _ => .error (.typeError ("length attempted on improper list"))

/-- Pair.__len__ (defined on pairs; the result starts at one for the pair
itself). -/
def pyLen : SchemeVal → Except Err Nat
  | .pair _ s => lenLoop 1 s
  | _ => .error (.typeError ("object has no len"))

/-- Specification-side view of a chain: the first components in chain
order. -/
def firsts : SchemeVal → List SchemeVal
  | .pair f s => f :: firsts s
  | _ => []

/-- Specification-side view of a chain: its terminal non-pair value. -/
def terminal : SchemeVal → SchemeVal
  | .pair _ s => terminal s
  | v => v

-- Buffer lemmas.

/-- Behavior of the current() loop: it delivers the head of the remaining
token sequence; the state keeps representing the same remainder; after a
delivered token the cursor is strictly inside the current line; and after
an exhausted source the state is the canonical empty one. -/
theorem currentAux_spec (src : List (List Token)) :
    ∀ (index : Nat) (cl : List Token) (lines : List (List Token)) (queries : Nat),
    (currentAux index cl lines queries src).1 = (cl.drop index ++ src.flatten).head?
    ∧ rem (currentAux index cl lines queries src).2 = cl.drop index ++ src.flatten
    ∧ ((currentAux index cl lines queries src).1.isSome = true →
        (currentAux index cl lines queries src).2.index <
          (currentAux index cl lines queries src).2.current_line.length)
    ∧ ((currentAux index cl lines queries src).1 = none →
        (currentAux index cl lines queries src).2.index = 0
        ∧ (currentAux index cl lines queries src).2.current_line = []
        ∧ (currentAux index cl lines queries src).2.source = []) := by
  induction src with
  | nil =>
    intro index cl lines queries
    by_cases h : index < cl.length
    · simp only [currentAux, dif_pos h]
      rw [List.drop_eq_getElem_cons h]
      simp [rem, h, List.get_eq_getElem, List.getElem?_eq_getElem]
    · simp only [currentAux, dif_neg h]
      rw [List.drop_eq_nil_of_le (Nat.le_of_not_lt h)]
      simp [rem]
  | cons l rest ih =>
    intro index cl lines queries
    by_cases h : index < cl.length
    · simp only [currentAux, dif_pos h]
      rw [List.drop_eq_getElem_cons h]
      simp [rem, h, List.get_eq_getElem, List.getElem?_eq_getElem]
    · have hd : cl.drop index = [] := List.drop_eq_nil_of_le (Nat.le_of_not_lt h)
      have hrec := ih 0 l (lines ++ [l]) (queries + 1)
      simp only [currentAux, dif_neg h]
      simpa [hd, List.flatten_cons] using hrec

theorem current_spec (b : Buffer) :
    (Buffer.current b).1 = (rem b).head?
    ∧ rem (Buffer.current b).2 = rem b
    ∧ ((Buffer.current b).1.isSome = true →
        (Buffer.current b).2.index < (Buffer.current b).2.current_line.length)
    ∧ ((Buffer.current b).1 = none →
        (Buffer.current b).2.index = 0 ∧ (Buffer.current b).2.current_line = []
        ∧ (Buffer.current b).2.source = []) := by
  have := currentAux_spec b.source b.index b.current_line b.lines b.queries
  simpa [Buffer.current, rem] using this

theorem pop_spec (b : Buffer) :
    (Buffer.pop b).1 = (rem b).head? ∧ rem (Buffer.pop b).2 = (rem b).tail := by
  obtain ⟨h1, h2, h3, h4⟩ := current_spec b
  refine ⟨h1, ?_⟩
  cases hc : (Buffer.current b).1 with
  | none =>
    obtain ⟨hi, hcl, hs⟩ := h4 hc
    have hb : rem b = [] := List.head?_eq_none_iff.mp (by rw [← h1, hc])
    simp only [Buffer.pop]
    rw [hb]
    simp [rem, hi, hcl, hs]
  | some tok =>
    have hlt := h3 (by rw [hc]; rfl)
    have h2x : (Buffer.current b).2.current_line.drop (Buffer.current b).2.index
        ++ (Buffer.current b).2.source.flatten = rem b := h2
    rw [List.drop_eq_getElem_cons hlt] at h2x
    simp only [Buffer.pop]
    show List.drop (b.current.2.index + 1) b.current.2.current_line
        ++ b.current.2.source.flatten = (rem b).tail
    rw [← h2x]
    rfl

theorem pops_spec : ∀ (n : Nat) (b : Buffer),
    pops b n = ((rem b).map some).take n ++ List.replicate (n - (rem b).length) none := by
  intro n
  induction n with
  | zero => intro b; simp [pops]
  | succ n ih =>
    intro b
    obtain ⟨h1, h2⟩ := pop_spec b
    cases hr : rem b with
    | nil =>
      have hz : rem (Buffer.pop b).2 = [] := by rw [h2, hr]; rfl
      simp [pops, h1, hr, ih (Buffer.pop b).2, hz, List.replicate_succ]
    | cons x xs =>
      have ht : rem (Buffer.pop b).2 = xs := by rw [h2, hr]; rfl
      simp [pops, h1, hr, ih (Buffer.pop b).2, ht, Nat.succ_sub_succ]

theorem rem_mkBuffer (src : List (List Token)) : rem (mkBuffer src) = src.flatten := by
  have := currentAux_spec src 0 [] [] 0
  simpa [mkBuffer, Buffer.current, rem] using this.2.1

-- Reader lemmas.

/-- The try/except of read_tail never lets an end-of-input error escape:
whatever the body produced, the result is not EOFError. -/
theorem catchEof_ne_eof (r : Except Err (SchemeVal × Buffer)) :
    catchEof r ≠ .error .eofError := by
  cases r with
  | ok v => simp [catchEof]
  | error e => cases e <;> simp [catchEof]

-- scheme_core lemmas.

/-- The iteration of a chain equals its firsts followed by its non-Nil
terminal, for every value. -/
theorem iterLoop_spec (v : SchemeVal) :
    iterLoop v = firsts v ++ (if terminal v = .nil then [] else [terminal v]) := by
  induction v with
  | atom t => simp [iterLoop, firsts, terminal]
  | nil => simp [iterLoop, firsts, terminal]
  | pair f s ihf ihs => simp [iterLoop, firsts, terminal, ihs]

/-- The counting loop of __len__ succeeds exactly on Nil-terminated
chains, adding the chain length to its accumulator. -/
theorem lenLoop_spec (v : SchemeVal) : ∀ n : Nat,
    lenLoop n v = (if terminal v = .nil then .ok (n + (firsts v).length)
      else .error (.typeError ("length attempted on improper list"))) := by
  induction v with
  | atom t => intro n; simp [lenLoop, terminal]
  | nil => intro n; simp [lenLoop, terminal, firsts]
  | pair f s ihf ihs =>
    intro n
    simp only [lenLoop, terminal, firsts, ihs (n + 1)]
    split
    · simp [List.length_cons]; omega
    · rfl

-- Claims.

/-- C1: the claim says that on a quote-family punctuator scheme_read pops
it, reads the following expression and returns the two-element list
(quote-symbol expr), so that reading a quoted symbol yields (quote hello).
The code disagrees with its own doctests: the quote branch of scheme_read
is the unfilled stub `if val in QUOTES: pass`, so control falls through to
the unexpected-token raise.  This theorem evaluates the code at the
documented failing input: the quoted-symbol line tokenizes to the quote
punctuator followed by the symbol, and reading it raises
SyntaxError("unexpected token: '") instead of returning the quote
expansion. -/
theorem C1_quote_stub :
    tokenize_line ⟨none⟩ (sqs ++ "hello")
      = .ok ([Token.str sqs, Token.str ("hello")], ⟨none⟩)
    ∧ read_line (sqs ++ "hello") = .error (.synError ("unexpected token: " ++ sqs)) :=
  ⟨by decide, by decide⟩

/-- C2: the claim says dotted lists follow the dot rule, with (1 . 2)
read as Pair(1, 2) and (. 2 3) raising the before-dot syntax error.  The
dot-handling section of read_tail is an unfilled stub in the source, so
the dot token reaches scheme_read, which raises
SyntaxError("unexpected token: .") for every one of the claim's four
inputs — contradicting the doctests of read_tail.  This theorem evaluates
the code at two of the documented inputs. -/
theorem C2_dot_stub :
    read_line ("(1 . 2)") = .error (.synError ("unexpected token: ."))
    ∧ read_line ("(. 2 3)") = .error (.synError ("unexpected token: .")) :=
  ⟨by decide, by decide⟩

/-- C3: the claim says every literal accepted by the numeric grammar
tokenizes without raising (value-level round trip), naming #xde as an
example.  The NUMBER grammar does accept #xde, but process_number tests
for a decimal-point or letter-e after stripping the radix prefix, so the
hexadecimal digits d/e are mistaken for a float: the text is routed to
float("ee"), which raises ValueError, contradicting process_number's own
docstring (integers in base 16 are claimed to be handled).  The
value-level round trip therefore fails: tokenization of this grammar-valid
literal raises instead of producing the numeric token 222. -/
theorem C3_hex_float_confusion :
    numberAccepts ("#xde") = true
    ∧ process_number ("#xde") = .error (.valueError ("could not convert string to float"))
    ∧ tokenize_line ⟨none⟩ ("#xde")
      = .error (.valueError ("could not convert string to float")) :=
  ⟨by decide, by decide, by decide⟩

/-- C6: the claim says decimal literals with an exponent marker and no
exactness prefix yield floats (the markers being e, s, f, d, l).  The
grammar accepts 1s2, but process_number's float-branch test only looks
for a decimal point or the letter e, so a literal whose only marker is
s/f/d/l is routed to the integer parser, and int("1s2", 10) raises
ValueError instead of yielding the float 100.0 the claim requires. -/
theorem C6_exponent_marker_crash :
    numberAccepts ("1s2") = true
    ∧ process_number ("1s2") = .error (.valueError ("invalid literal for int"))
    ∧ tokenize_line ⟨none⟩ ("1s2") = .error (.valueError ("invalid literal for int")) :=
  ⟨by decide, by decide, by decide⟩

/-- C10: for every finite acyclic chain of Pairs, Pair iteration yields
each pair's first element in chain order (and, exactly when the chain's
terminal value is not Nil, additionally yields that terminal value as a
final item) and never raises, while Pair length succeeds with the count of
pairs exactly on Nil-terminated chains and raises TypeError on exactly the
improper ones. -/
theorem C10_iter_vs_len (f s : SchemeVal) :
    iterLoop (.pair f s)
      = firsts (.pair f s)
        ++ (if terminal (.pair f s) = .nil then [] else [terminal (.pair f s)])
    ∧ pyLen (.pair f s)
      = (if terminal (.pair f s) = .nil then .ok (firsts (.pair f s)).length
         else .error (.typeError ("length attempted on improper list"))) := by
  refine ⟨iterLoop_spec _, ?_⟩
  simp only [pyLen, lenLoop_spec s 1, terminal, firsts]
  split
  · simp [List.length_cons]; omega
  · rfl

/-- C7: for every Buffer over a sequence of token lines, successive pop()
calls yield exactly the concatenation of the lines' tokens in order,
followed by the None sentinel on every later call, and pop() never raises
on exhaustion (it is total and returns the sentinel). -/
theorem C7_pop_sequence (lines : List (List Token)) (n : Nat) :
    pops (mkBuffer lines) n
      = ((lines.flatten).map some).take n
        ++ List.replicate (n - lines.flatten.length) none := by
  rw [← rem_mkBuffer lines]
  exact pops_spec n (mkBuffer lines)

/-- C4 counterexample: the claim says that after the source has signaled
end of data once, no further request is made to the source.  Construction
of a buffer over an empty source makes exactly one request (receiving the
end-of-data signal), and the very next pop() makes a second request: the
query count goes from 1 to 2. -/
theorem C4_counterexample :
    (mkBuffer ([] : List (List Token))).queries = 1
    ∧ (Buffer.pop (mkBuffer ([] : List (List Token)))).2.queries = 2 :=
  ⟨by decide, by decide⟩

/-- C4 amended: on an exhausted buffer (empty remaining source and empty
current line), every subsequent current() and pop() keeps returning the
None sentinel — but each such call re-queries the source, which must
signal exhaustion again: the query count grows by one per call, and the
state stays exhausted. -/
theorem C4_exhausted_requery (b : Buffer)
    (hsrc : b.source = []) (hcl : b.current_line = []) :
    Buffer.current b = (none, ⟨0, b.lines, [], [], b.queries + 1⟩)
    ∧ Buffer.pop b = (none, ⟨1, b.lines, [], [], b.queries + 1⟩) := by
  rcases b with ⟨i, ls, src, cl, q⟩
  simp only at hsrc hcl
  subst hsrc
  subst hcl
  constructor
  · simp [Buffer.current, currentAux]
  · simp [Buffer.pop, Buffer.current, currentAux]

/-- C4 witness: the amended statement at a concrete exhausted buffer. -/
theorem C4_witness :
    Buffer.current ⟨5, [], [], [], 3⟩ = (none, ⟨0, [], [], [], 4⟩)
    ∧ Buffer.pop ⟨5, [], [], [], 3⟩ = (none, ⟨1, [], [], [], 4⟩) :=
  C4_exhausted_requery ⟨5, [], [], [], 3⟩ rfl rfl

/-- C5 counterexample: the claim says the cursor is a valid index or
exactly the current line's length after every call, in particular after
pop() on an exhausted source.  After exactly such a pop the cursor is 1
while the current line is empty (length 0). -/
theorem C5_counterexample :
    (Buffer.pop (mkBuffer ([] : List (List Token)))).2.index = 1
    ∧ (Buffer.pop (mkBuffer ([] : List (List Token)))).2.current_line.length = 0
    ∧ ¬ ((Buffer.pop (mkBuffer ([] : List (List Token)))).2.index
        ≤ (Buffer.pop (mkBuffer ([] : List (List Token)))).2.current_line.length) :=
  ⟨rfl, rfl, by decide⟩

/-- C5 amended: after every current() the cursor is a valid index into
the current line or equal to its length; the same holds after every pop()
that returns a token; but a pop() that returns the None sentinel leaves
the cursor at 1 with an empty current line, exceeding the line length by
one. -/
theorem C5_cursor_bound (b : Buffer) :
    ((Buffer.current b).2.index ≤ (Buffer.current b).2.current_line.length)
    ∧ ((Buffer.pop b).1.isSome = true →
        (Buffer.pop b).2.index ≤ (Buffer.pop b).2.current_line.length)
    ∧ ((Buffer.pop b).1 = none →
        (Buffer.pop b).2.index = 1 ∧ (Buffer.pop b).2.current_line = []) := by
  obtain ⟨h1, h2, h3, h4⟩ := current_spec b
  refine ⟨?_, ?_, ?_⟩
  · cases hc : (Buffer.current b).1 with
    | none =>
      obtain ⟨hi, hcl, _⟩ := h4 hc
      simp [hi, hcl]
    | some t => exact Nat.le_of_lt (h3 (by rw [hc]; rfl))
  · intro hs
    have hlt := h3 hs
    show (Buffer.current b).2.index + 1 ≤ (Buffer.current b).2.current_line.length
    exact hlt
  · intro hn
    obtain ⟨hi, hcl, _⟩ := h4 hn
    refine ⟨?_, hcl⟩
    show (Buffer.current b).2.index + 1 = 1
    rw [hi]

/-- C5 witness: the amended statement applied at a concrete exhausted
buffer, discharging the sentinel hypothesis. -/
theorem C5_witness :
    (Buffer.pop ⟨0, [], [], [], 0⟩).2.index = 1
    ∧ (Buffer.pop ⟨0, [], [], [], 0⟩).2.current_line = [] :=
  (C5_cursor_bound ⟨0, [], [], [], 0⟩).2.2 rfl

/-- C8: the reader distinguishes the two end-of-input situations.  When
the buffer is already exhausted as scheme_read is entered, the distinct
end-of-input signal (EOFError) propagates unchanged.  Inside a partially
read list, read_tail never lets an end-of-input signal escape: an
exhausted buffer there produces SyntaxError("unexpected end of file"), and
no read_tail result whatsoever is the end-of-input signal (its try/except
converts any EOFError raised within). -/
theorem C8_eof_discipline :
    (∀ (src : Buffer) (fuel : Nat), (Buffer.current src).1 = none →
        scheme_read (fuel+1) src = .error .eofError)
    ∧ (∀ (src : Buffer) (n fuel : Nat), read_tail fuel src n ≠ .error .eofError)
    ∧ (∀ (src : Buffer) (n fuel : Nat), (Buffer.current src).1 = none →
        read_tail (fuel+1) src n = .error (.synError ("unexpected end of file"))) := by
  refine ⟨?_, ?_, ?_⟩
  · intro src fuel h
    rcases hE : Buffer.current src with ⟨c, b2⟩
    rw [hE] at h
    simp only at h
    subst h
    simp [scheme_read, hE]
  · intro src n fuel
    cases fuel with
    | zero => simp [read_tail]
    | succ f =>
      simp only [read_tail]
      exact catchEof_ne_eof _
  · intro src n fuel h
    rcases hE : Buffer.current src with ⟨c, b2⟩
    rw [hE] at h
    simp only at h
    subst h
    simp [read_tail, hE, catchEof]

/-- C8 witness: both behaviors at a concrete exhausted buffer. -/
theorem C8_witness :
    scheme_read 5 (mkBuffer []) = .error .eofError
    ∧ read_tail 5 (mkBuffer []) 0 = .error (.synError ("unexpected end of file")) :=
  ⟨C8_eof_discipline.1 (mkBuffer []) 4 (by decide),
   C8_eof_discipline.2.2 (mkBuffer []) 0 4 (by decide)⟩

/-- Escape substitution never empties a nonempty text. -/
theorem pyEscapeSub_ne_nil (c : Char) (rest : List Char) : pyEscapeSub (c :: rest) ≠ [] := by
  cases rest with
  | nil => simp [pyEscapeSub]
  | cons d r2 =>
    simp only [pyEscapeSub]
    split <;> simp

/-- A string built from a cons cell is truthy. -/
theorem truthy_mk_cons (c : Char) (l : List Char) :
    truthy (some (String.mk (c :: l))) = true := by
  simp only [truthy, Bool.not_eq_eq_eq_not, Bool.not_true]
  rw [Bool.eq_false_iff]
  intro h
  exact List.noConfusion (congrArg String.data ((String.isEmpty_iff _).mp h))

/-- A truthy string splits as a cons cell. -/
theorem truthy_toList (p : String) (hp : truthy (some p) = true) :
    ∃ c l, p.toList = c :: l := by
  cases p with
  | mk d =>
    cases d with
    | nil => exact absurd hp (by decide)
    | cons c l => exact ⟨c, l, rfl⟩

/-- C9: with a pending multi-line string and any next line fed to the
tokenizer: if STRING_END closes the string on that line, _next_token
emits the completed String token at the closure position and resets the
pending state to empty, and the tokenize_line loop emits that token first
and continues normal scanning on the remainder of the line from the
closure position with empty pending state; if the line does not close the
string, the line contributes zero tokens, and the whole (normalized) line
is appended to the pending fragment, which remains non-empty — the
pending state resets to empty only on successful closure. -/
theorem C9_pending_string (p : String) (line : String) (f : Nat)
    (hp : truthy (some p) = true) :
    (∀ n, Regex.firstSpan STRING_END (normalizeLine line) = some n →
      nextToken ⟨some p⟩ (normalizeLine line) 0
        = .ok ((Token.str (String.mk (pyEscapeSub
              (p.toList ++ (normalizeLine line).take n))), n), ⟨none⟩)
      ∧ tokLoop (f+1) ⟨some p⟩ (normalizeLine line) 0
        = Except.map
            (fun r => (Token.str (String.mk (pyEscapeSub
                (p.toList ++ (normalizeLine line).take n))) :: r.1, r.2))
            (tokLoop f ⟨none⟩ (normalizeLine line) n))
    ∧ (Regex.firstSpan STRING_END (normalizeLine line) = none →
      tokenize_line ⟨some p⟩ line
        = .ok ([], ⟨some (String.mk (p.toList ++ normalizeLine line))⟩)
      ∧ truthy (some (String.mk (p.toList ++ normalizeLine line))) = true) := by
  obtain ⟨c0, l0, hcons⟩ := truthy_toList p hp
  constructor
  · intro n hm
    have h1 : nextToken ⟨some p⟩ (normalizeLine line) 0
        = .ok ((Token.str (String.mk (pyEscapeSub
              (p.toList ++ (normalizeLine line).take n))), n), ⟨none⟩) := by
      simp [nextToken, hp, hm]
    refine ⟨h1, ?_⟩
    have hne : Token.str (String.mk (pyEscapeSub
        (p.toList ++ (normalizeLine line).take n))) ≠ Token.str ("") := by
      intro hEq
      injection hEq with hs
      rw [hcons] at hs
      exact pyEscapeSub_ne_nil c0 (l0 ++ (normalizeLine line).take n)
        (congrArg String.data hs)
    simp only [tokLoop, h1]
    rw [if_neg hne]
    cases htl : tokLoop f ⟨none⟩ (normalizeLine line) n with
    | ok r => simp [Except.map, Except.bind]
    | error e => simp [Except.map, Except.bind]
  · intro hm
    have h1 : tokenize_line ⟨some p⟩ line
        = .ok ([], ⟨some (String.mk (p.toList ++ normalizeLine line))⟩) := by
      simp [tokenize_line, tokLoop, nextToken, hp, hm]
    refine ⟨h1, ?_⟩
    rw [hcons]
    exact truthy_mk_cons c0 (l0 ++ normalizeLine line)

/-- C9 witness: the theorem applied at a concrete pending fragment with a
closing line (the earliest unescaped double quote closes at position 3)
and, separately, with a non-closing line. -/
theorem C9_witness :
    (nextToken ⟨some ("ab")⟩ (normalizeLine ("cd\" e")) 0
        = .ok ((Token.str (String.mk (pyEscapeSub
              ("ab".toList ++ (normalizeLine ("cd\" e")).take 3))), 3), ⟨none⟩))
    ∧ (tokenize_line ⟨some ("ab")⟩ ("xy")
        = .ok ([], ⟨some (String.mk ("ab".toList ++ normalizeLine ("xy")))⟩)) :=
  ⟨((C9_pending_string ("ab") "cd\" e" 0 (by decide)).1 3 (by decide)).1,
   ((C9_pending_string ("ab") "xy" 0 (by decide)).2 (by decide)).1⟩
